import Mathlib

/-!
# Verification of the grid-x/aws-auto-snapshot retention/expiry core

Shallow embedding of the retention-policy engine of the repository
`grid-x/aws-auto-snapshot`:

* `pkg/snapshot/ec2/ec2.go` — EBS snapshot creation (retention-tag scan,
  expiry computation, create-snapshot request) and tag-based pruning;
* `pkg/snapshot/lightsail/lightsail.go` — instance snapshot pruning;
* `pkg/datastore/dynamodb/dynamodb.go` — metadata store
  (`StoreSnapshotInfo`, `GetLatestSnapshotInfo`);
* `cmd/snapshotter/main.go` — the `restore ebs` command path.

Modelling conventions:

* Go `int64` arithmetic that can overflow is modelled on `Int` with an
  explicit wrap `wrap64` (two's-complement wrap modulo `2^64`).
* Timestamps are `Int` epoch values; nanoseconds for `time.Time` values,
  seconds where the code stores seconds (`time.Time.Unix()`).
* Go strings are Lean `String`s.  `strings.ToLower` and
  `strings.HasSuffix` are modelled on the character list of the string
  (`goToLower`, `goHasSuffix`); `Char.toLower` matches Go's behaviour on
  ASCII keys, which is what the tool's tag keys are.
* AWS SDK pointer fields (`*string`, `*time.Time`, …) are `Option`s.
-/

namespace AwsAutoSnapshot

/-! ## Strings: models of the Go `strings` helpers used by the source -/

/-- Model of Go `strings.ToLower` restricted to ASCII case mapping
(`Char.toLower` lowers exactly the ASCII range, which covers every tag
key this tool manipulates). -/
def goToLower (s : String) : String :=
  String.mk (s.data.map Char.toLower)

/-- Model of Go `strings.HasSuffix s suffix`. -/
def goHasSuffix (s suffix : String) : Bool :=
  List.isSuffixOf suffix.data s.data

/-- Model of Go `strconv.ParseInt(s, 10, 64)`: an optional leading sign,
then one or more ASCII digits, and the resulting value must fit in
`int64`; any other input is a parse error (`none`). -/
def parseInt64 (s : String) : Option Int :=
  let (neg, digits) :=
    match s.data with
    | '+' :: rest => (false, rest)
    | '-' :: rest => (true, rest)
    | l => (false, l)
  if digits = [] then none
  else if digits.all Char.isDigit then
    let n : Nat := digits.foldl (fun a c => a * 10 + (c.toNat - 48)) 0
    let v : Int := if neg then -(n : Int) else (n : Int)
    if -(2 ^ 63) ≤ v ∧ v ≤ 2 ^ 63 - 1 then some v else none
  else none

/-! ## Two's-complement wrap for Go `int64` arithmetic -/

/-- Wrap an integer into the `int64` range, as Go's `int64` multiplication
does on overflow. -/
def wrap64 (x : Int) : Int :=
  (x + 2 ^ 63) % 2 ^ 64 - 2 ^ 63

theorem wrap64_eq_of_bounds (x : Int) (h0 : -(2 ^ 63) ≤ x) (h1 : x < 2 ^ 63) :
    wrap64 x = x := by
  unfold wrap64
  have hlt : x + 2 ^ 63 < 2 ^ 64 := by omega
  have hge : (0 : Int) ≤ x + 2 ^ 63 := by omega
  rw [Int.emod_eq_of_lt hge hlt]
  omega

/-! ## EC2 data model (`pkg/snapshot/ec2/ec2.go`) -/

/-- An EC2 tag (`*ec2.Tag`): both fields are `*string` in the SDK. -/
structure Ec2Tag where
  key : Option String
  value : Option String
  deriving Repr, DecidableEq

/-- An EBS volume as used by `Snapshot` (`*ec2.Volume`): identity and
tags; other SDK fields are irrelevant to the core. -/
structure Ec2Volume where
  volumeId : Option String
  tags : List Ec2Tag
  deriving Repr, DecidableEq

/-- An EBS snapshot as used by `Prune` (`*ec2.Snapshot`). -/
structure Ec2Snapshot where
  snapshotId : Option String
  tags : List Ec2Tag
  deriving Repr, DecidableEq

/-- Constant `defaultRetentionDays = 7  // Default are 7 days retention`
(ec2.go line 22). -/
def defaultRetentionDays : Int := 7

/-- Constant `defaultDescription` (ec2.go line 23). -/
def defaultDescription : String := "auto snapshot created by grid-x/aws-auto-snapshot"

/-- Constant `defaultSnapshotSuffix` (ec2.go line 19). -/
def defaultSnapshotSuffix : String := "auto-snapshot"

/-- Constant `defaultDeleteAfterTag` (ec2.go line 20). -/
def defaultDeleteAfterTag : String := "_DELETE_AFTER"

/-- The retention-tag scan of `SnapshotManager.Snapshot`
(ec2.go lines 204–221), translated clause by clause:

```go
var days int64
for _, tag := range volume.Tags {
    if tag.Key == nil { continue }
    if strings.ToLower(*tag.Key) == strings.ToLower(smgr.retentionTag) {
        if tag.Value == nil { logger.Warnf(...); continue }
        days, err = strconv.ParseInt(*tag.Value, 10, 64)
        if err != nil { days = defaultRetentionDays }
        break
    }
}
```

`days` starts at `0` and the loop `break`s on the first tag whose key
matches (case-insensitively) and whose value is non-nil. -/
def retentionDaysLoop (retLower : String) : List Ec2Tag → Int
  | [] => 0
  | t :: rest =>
    match t.key with
    | none => retentionDaysLoop retLower rest
    | some k =>
      if goToLower k = retLower then
        match t.value with
        | none => retentionDaysLoop retLower rest
        | some v =>
          match parseInt64 v with
          | some n => n
          | none => defaultRetentionDays
      else retentionDaysLoop retLower rest

/-- Retention days derived by `Snapshot` for a volume's tag list. -/
def retentionDays (retentionTag : String) (tags : List Ec2Tag) : Int :=
  retentionDaysLoop (goToLower retentionTag) tags

/-- Expiry `deleteAfter := time.Now().Add(time.Duration(days) * 24 * time.Hour)`
(ec2.go line 223).  `time.Duration(days) * 24 * time.Hour` is `int64`
nanosecond arithmetic and wraps on overflow; `time.Time.Add` itself does
not overflow for realistic wall-clock times, so the addition is exact.
`nowNs` is the creation instant in epoch nanoseconds. -/
def expiryNs (nowNs : Int) (days : Int) : Int :=
  nowNs + wrap64 (days * 86400000000000)

/-! ## RFC3339 timestamps (`time.Parse(time.RFC3339, v)` /
`time.Format(time.RFC3339)`)

The delete-after tag value is an RFC3339 string
(`"2006-01-02T15:04:05Z07:00"`).  The parser below models Go's
`time.Parse` on that layout: date and clock fields with their range
checks, an optional fractional second of at most nine digits, and a
`Z` or `±HH:MM` zone designator, converted to epoch nanoseconds via the
standard civil-calendar day count. -/

/-- Numeric value of a run of ASCII digits. -/
def digitsVal (l : List Char) : Nat :=
  l.foldl (fun a c => a * 10 + (c.toNat - 48)) 0

/-- Two ASCII digits, returning their value and the rest of the input. -/
def parse2 : List Char → Option (Nat × List Char)
  | a :: b :: rest =>
    if a.isDigit && b.isDigit then some (digitsVal [a, b], rest) else none
  | _ => none

/-- Four ASCII digits (the year field). -/
def parse4 : List Char → Option (Nat × List Char)
  | a :: b :: c :: d :: rest =>
    if a.isDigit && b.isDigit && c.isDigit && d.isDigit then
      some (digitsVal [a, b, c, d], rest)
    else none
  | _ => none

/-- Consume one expected character. -/
def expectChar (c : Char) : List Char → Option (List Char)
  | x :: rest => if x = c then some rest else none
  | [] => none

/-- Optional fractional second after the seconds field: `.` followed by
one to nine digits, scaled to nanoseconds; absent fraction is zero. -/
def parseFrac : List Char → Option (Nat × List Char)
  | '.' :: rest =>
    let digs := rest.takeWhile Char.isDigit
    let rest' := rest.dropWhile Char.isDigit
    if digs = [] then none
    else if digs.length ≤ 9 then
      some (digitsVal digs * 10 ^ (9 - digs.length), rest')
    else none
  | l => some (0, l)

/-- Zone designator: `Z`, or `±HH:MM` as an offset in seconds. -/
def parseZone : List Char → Option (Int × List Char)
  | 'Z' :: rest => some (0, rest)
  | c :: rest =>
    if c = '+' ∨ c = '-' then
      match parse2 rest with
      | none => none
      | some (zh, l) =>
        match expectChar ':' l with
        | none => none
        | some l =>
          match parse2 l with
          | none => none
          | some (zm, l) =>
            if zh ≤ 23 ∧ zm ≤ 59 then
              let off : Int := (zh : Int) * 3600 + (zm : Int) * 60
              some (if c = '-' then -off else off, l)
            else none
    else none
  | [] => none

/-- Gregorian leap year. -/
def isLeap (y : Nat) : Bool :=
  (y % 4 == 0 && y % 100 != 0) || y % 400 == 0

/-- Days in a month of the proleptic Gregorian calendar. -/
def daysInMonth (y m : Nat) : Nat :=
  match m with
  | 1 => 31 | 2 => if isLeap y then 29 else 28 | 3 => 31 | 4 => 30
  | 5 => 31 | 6 => 30 | 7 => 31 | 8 => 31 | 9 => 30 | 10 => 31
  | 11 => 30 | 12 => 31 | _ => 0

/-- Days since the Unix epoch of a civil date (standard era/year-of-era
day count, floor divisions via `Int.ediv`/`Int.emod`). -/
def daysFromCivil (y m d : Int) : Int :=
  let y' := if m ≤ 2 then y - 1 else y
  let era := Int.ediv y' 400
  let yoe := Int.emod y' 400
  let mp := Int.emod (m + 9) 12
  let doy := Int.ediv (153 * mp + 2) 5 + d - 1
  let doe := yoe * 365 + Int.ediv yoe 4 - Int.ediv yoe 100 + doy
  era * 146097 + doe - 719468

/-- Two-digit field followed by an expected separator. -/
def parse2Sep (sep : Char) (l : List Char) : Option (Nat × List Char) :=
  match parse2 l with
  | none => none
  | some (v, l) =>
    match expectChar sep l with
    | none => none
    | some l => some (v, l)

/-- Date part `YYYY-MM-DD` followed by `T`. -/
def parseDateT (l : List Char) : Option (Nat × Nat × Nat × List Char) :=
  match parse4 l with
  | none => none
  | some (y, l) =>
    match expectChar '-' l with
    | none => none
    | some l =>
      match parse2Sep '-' l with
      | none => none
      | some (mo, l) =>
        match parse2Sep 'T' l with
        | none => none
        | some (d, l) => some (y, mo, d, l)

/-- Clock part `HH:MM:SS`. -/
def parseClock (l : List Char) : Option (Nat × Nat × Nat × List Char) :=
  match parse2Sep ':' l with
  | none => none
  | some (h, l) =>
    match parse2Sep ':' l with
    | none => none
    | some (mi, l) =>
      match parse2 l with
      | none => none
      | some (ss, l) => some (h, mi, ss, l)

/-- Fraction and zone, requiring the input to be exhausted; returns the
sub-second nanoseconds and the zone offset in seconds. -/
def parseFracZone (l : List Char) : Option (Nat × Int) :=
  match parseFrac l with
  | none => none
  | some (frac, l) =>
    match parseZone l with
    | none => none
    | some (offSec, l) => if l = [] then some (frac, offSec) else none

/-- Range checks of the date and clock fields, as `time.Parse` performs
them. -/
def fieldsInRange (y mo d h mi ss : Nat) : Prop :=
  1 ≤ mo ∧ mo ≤ 12 ∧ 1 ≤ d ∧ d ≤ daysInMonth y mo ∧
    h ≤ 23 ∧ mi ≤ 59 ∧ ss ≤ 59

instance (y mo d h mi ss : Nat) : Decidable (fieldsInRange y mo d h mi ss) :=
  inferInstanceAs (Decidable (_ ∧ _))

/-- Epoch nanoseconds of a parsed timestamp. -/
def civilToNs (y mo d h mi ss : Nat) (frac : Nat) (offSec : Int) : Int :=
  (daysFromCivil (y : Int) (mo : Int) (d : Int) * 86400 +
      (h : Int) * 3600 + (mi : Int) * 60 + (ss : Int) - offSec) *
    1000000000 + (frac : Int)

/-- Model of `time.Parse(time.RFC3339, s)`, yielding the parsed instant
in epoch nanoseconds, or `none` when the string is not a valid RFC3339
timestamp. -/
def parseRFC3339 (s : String) : Option Int :=
  match parseDateT s.data with
  | none => none
  | some (y, mo, d, l) =>
    match parseClock l with
    | none => none
    | some (h, mi, ss, l) =>
      match parseFracZone l with
      | none => none
      | some (frac, offSec) =>
        if fieldsInRange y mo d h mi ss then
          some (civilToNs y mo d h mi ss frac offSec)
        else none

/-! ## EC2 pruning (`SnapshotManager.Prune`, ec2.go lines 269–309) -/

/-- Model of `fetchSnapshots` (ec2.go lines 137–175): the provider-side filter
keeps snapshots carrying a tag whose key is exactly the delete-after tag
(no lower-case variant here, unlike the backup-tag filter), and snapshots
with a nil `SnapshotId` are skipped. -/
def fetchSnapshotsFilter (dat : String) (snaps : List Ec2Snapshot) : List Ec2Snapshot :=
  snaps.filter fun s =>
    s.snapshotId.isSome && s.tags.any (fun t => t.key = some dat)

/-- The inner tag loop of `Prune` (ec2.go lines 276–305) for one
snapshot, returning the `DeleteSnapshot` calls issued (each carries the
snapshot's `SnapshotId` pointer):

```go
for _, tag := range snap.Tags {
    if tag.Key == nil { continue }
    if *tag.Key == smgr.deleteAfterTag {
        if tag.Value == nil { logger.Errorf(...); continue }
        deleteAfter, err := time.Parse(time.RFC3339, *tag.Value)
        if err != nil { logger.Error(...); break }
        if deleteAfter.Before(time.Now()) {
            // snapshot not yet scheduled for deletion
            break
        }
        smgr.client.DeleteSnapshotWithContext(ctx, &ec2.DeleteSnapshotInput{SnapshotId: snap.SnapshotId})
    }
}
```

Note the key comparison is exact (case-sensitive), an unparsable value
`break`s, and the `deleteAfter.Before(now)` branch `break`s while the
other branch issues the delete. -/
def ec2PruneTagLoop (dat : String) (nowNs : Int) (sid : Option String) :
    List Ec2Tag → List (Option String)
  | [] => []
  | t :: rest =>
    match t.key with
    | none => ec2PruneTagLoop dat nowNs sid rest
    | some k =>
      if k = dat then
        match t.value with
        | none => ec2PruneTagLoop dat nowNs sid rest
        | some v =>
          match parseRFC3339 v with
          | none => []
          | some da =>
            if da < nowNs then []
            else sid :: ec2PruneTagLoop dat nowNs sid rest
      else ec2PruneTagLoop dat nowNs sid rest

/-- Model of `SnapshotManager.Prune` (ec2.go lines 269–309): the list of
`DeleteSnapshot` calls issued over the fetched snapshots at instant
`nowNs`. -/
def ec2Prune (dat : String) (nowNs : Int) (snaps : List Ec2Snapshot) :
    List (Option String) :=
  (fetchSnapshotsFilter dat snaps).flatMap fun s =>
    ec2PruneTagLoop dat nowNs s.snapshotId s.tags

/-- The `CreateSnapshotInput` fields the source can set. -/
structure CreateSnapshotInput where
  description : Option String
  volumeId : Option String
  deriving Repr, DecidableEq

/-- The create-snapshot request built inside the per-volume loop of
`Snapshot` (ec2.go lines 226–231): only `Description` is populated;
`VolumeId` is never set, even though `volume` is in scope. -/
def createSnapshotRequest (_volume : Ec2Volume) : CreateSnapshotInput :=
  { description := some defaultDescription, volumeId := none }

/-- A tag that the retention scan of `Snapshot` passes over without
`break`ing: a nil key, a non-matching key, or a matching key whose value
is nil. -/
def skipsRetentionTag (retLower : String) (t : Ec2Tag) : Bool :=
  match t.key with
  | none => true
  | some k => if goToLower k = retLower then t.value.isNone else true

theorem retentionDaysLoop_append (rl : String) (pre rest : List Ec2Tag)
    (h : ∀ t ∈ pre, skipsRetentionTag rl t = true) :
    retentionDaysLoop rl (pre ++ rest) = retentionDaysLoop rl rest := by
  induction pre with
  | nil => rfl
  | cons t pre ih =>
    have ht := h t (List.mem_cons_self t pre)
    have hrest := fun t' ht' => h t' (List.mem_cons_of_mem t ht')
    obtain ⟨tk, tv⟩ := t
    cases tk with
    | none =>
      simpa only [List.cons_append, retentionDaysLoop] using ih hrest
    | some k =>
      by_cases hg : goToLower k = rl
      · simp only [skipsRetentionTag, hg, if_true] at ht
        have htv : tv = none := Option.isNone_iff_eq_none.mp ht
        subst htv
        simpa only [List.cons_append, retentionDaysLoop, hg, if_true]
          using ih hrest
      · simpa only [List.cons_append, retentionDaysLoop, hg, if_false]
          using ih hrest

/-- Where the retention scan's result can come from: no effective tag
(`0`), an unparsable matching tag (`defaultRetentionDays`), or the
parsed value of a matching tag. -/
theorem retentionDaysLoop_spec (rl : String) (tags : List Ec2Tag) :
    retentionDaysLoop rl tags = 0 ∨
    retentionDaysLoop rl tags = defaultRetentionDays ∨
    ∃ t ∈ tags, ∃ k v, t.key = some k ∧ goToLower k = rl ∧
      t.value = some v ∧ parseInt64 v = some (retentionDaysLoop rl tags) := by
  induction tags with
  | nil => exact Or.inl rfl
  | cons t rest ih =>
    obtain ⟨tk, tv⟩ := t
    cases tk with
    | none =>
      simp only [retentionDaysLoop]
      rcases ih with h | h | ⟨t', ht', k, v, h1, h2, h3, h4⟩
      · exact Or.inl h
      · exact Or.inr (Or.inl h)
      · exact Or.inr (Or.inr ⟨t', List.mem_cons_of_mem _ ht', k, v, h1, h2, h3, h4⟩)
    | some k =>
      by_cases hg : goToLower k = rl
      · cases tv with
        | none =>
          simp only [retentionDaysLoop, hg, if_true]
          rcases ih with h | h | ⟨t', ht', k', v, h1, h2, h3, h4⟩
          · exact Or.inl h
          · exact Or.inr (Or.inl h)
          · exact Or.inr (Or.inr ⟨t', List.mem_cons_of_mem _ ht', k', v, h1, h2, h3, h4⟩)
        | some v =>
          cases hp : parseInt64 v with
          | none =>
            refine Or.inr (Or.inl ?_)
            simp only [retentionDaysLoop, hg, if_true, hp]
          | some n =>
            refine Or.inr (Or.inr ⟨⟨some k, some v⟩, List.mem_cons_self _ _, k, v,
              rfl, hg, rfl, ?_⟩)
            simp only [retentionDaysLoop, hg, if_true, hp]
      · simp only [retentionDaysLoop, hg, if_false]
        rcases ih with h | h | ⟨t', ht', k', v, h1, h2, h3, h4⟩
        · exact Or.inl h
        · exact Or.inr (Or.inl h)
        · exact Or.inr (Or.inr ⟨t', List.mem_cons_of_mem _ ht', k', v, h1, h2, h3, h4⟩)

/-! ## Metadata store (`pkg/datastore/dynamodb/dynamodb.go`) -/

/-- A row of the DynamoDB table (`item`, dynamodb.go lines 51–56):
partition key `snapshot_resource`, range key `created_at` (epoch
seconds), attributes `snap_id` and `labels`. -/
structure DbItem where
  resource : String
  createdAt : Int
  snapId : String
  labels : List (String × String)
  deriving Repr, DecidableEq

/-- Record `datastore.SnapshotInfo` (pkg/datastore): resource identity,
snapshot identity, creation time (epoch nanoseconds) and labels. -/
structure SnapshotInfo where
  resource : String
  id : String
  createdAtNs : Int
  labels : List (String × String)
  deriving Repr, DecidableEq

/-- The row written by `StoreSnapshotInfo` (dynamodb.go lines 79–84):
`CreatedAt: info.CreatedAt.Unix()` is the floor of the nanosecond
instant to whole seconds. -/
def storeItemOf (info : SnapshotInfo) : DbItem :=
  { resource := info.resource
    createdAt := Int.ediv info.createdAtNs 1000000000
    snapId := info.id
    labels := info.labels }

/-- Rows share the DynamoDB primary key (partition key + range key). -/
def sameKey (a b : DbItem) : Bool :=
  a.resource == b.resource && a.createdAt == b.createdAt

/-- DynamoDB `PutItem` semantics (external collaborator contract): an
upsert — a row with the same primary key is replaced, otherwise the row
is added. -/
def putItem (table : List DbItem) (it : DbItem) : List DbItem :=
  if table.any (fun j => sameKey j it) then
    table.map (fun j => if sameKey j it then it else j)
  else table ++ [it]

/-- Model of `StoreSnapshotInfo` (dynamodb.go lines 74–107): marshal the record
and `PutItem` it. -/
def storeSnapshotInfo (table : List DbItem) (info : SnapshotInfo) : List DbItem :=
  putItem table (storeItemOf info)

/-- Ascending order on the range key `created_at`. -/
def byCreated (a b : DbItem) : Prop := a.createdAt ≤ b.createdAt

instance : DecidableRel byCreated :=
  fun a b => inferInstanceAs (Decidable (a.createdAt ≤ b.createdAt))

instance : IsTotal DbItem byCreated :=
  ⟨fun a b => Int.le_total a.createdAt b.createdAt⟩

instance : IsTrans DbItem byCreated :=
  ⟨fun _ _ _ hab hbc => le_trans hab hbc⟩

/-- The key condition of the `Query`
(`snapshot_resource = resource AND created_at >= cutoff`,
dynamodb.go lines 117–127). -/
def inQuery (resource : String) (cutoff : Int) (it : DbItem) : Bool :=
  it.resource == resource && decide (cutoff ≤ it.createdAt)

/-- DynamoDB `Query` semantics (external collaborator contract): the
rows matching the key condition, in ascending range-key order
(`ScanIndexForward` defaults to true). -/
def dynamoQuery (table : List DbItem) (resource : String) (cutoff : Int) :
    List DbItem :=
  List.insertionSort byCreated (table.filter (inQuery resource cutoff))

/-- Errors of `GetLatestSnapshotInfo`: a failed provider query
(propagated `err` of `d.client.Query`), or the `"No items found"`
error produced when the query matches nothing. -/
inductive DsError
  | queryError (msg : String)
  | notFound
  deriving Repr, DecidableEq

/-- Conversion `time.Unix(last.CreatedAt, 0)` turned back into nanoseconds, plus
the other fields of the returned record (dynamodb.go lines 145–151). -/
def toSnapshotInfo (it : DbItem) : SnapshotInfo :=
  { resource := it.resource
    id := it.snapId
    createdAtNs := it.createdAt * 1000000000
    labels := it.labels }

/-- The `len(items) <= 0` check and `last := items[len(items)-1]`
(dynamodb.go lines 139–151). -/
def getLatestFromItems (items : List DbItem) : Except DsError SnapshotInfo :=
  match items.getLast? with
  | none => .error .notFound
  | some last => .ok (toSnapshotInfo last)

/-- Duration `2 * 24 * time.Hour` in seconds: the lookback window of
`GetLatestSnapshotInfo` (dynamodb.go line 125). -/
def lookbackSec : Int := 172800

/-- Model of `GetLatestSnapshotInfo` (dynamodb.go lines 110–152) when the
provider query succeeds: query with cutoff `now − 2 days`, then take the
last returned row.  `nowSec` is `time.Now().Unix()`. -/
def getLatestSnapshotInfo (nowSec : Int) (table : List DbItem)
    (resource : String) : Except DsError SnapshotInfo :=
  getLatestFromItems (dynamoQuery table resource (nowSec - lookbackSec))

/-- Model of `GetLatestSnapshotInfo` on an arbitrary provider response: a failed
query is propagated as `queryError` (dynamodb.go lines 130–132),
otherwise the items are processed as above. -/
def getLatestSnapshotInfoResp (resp : Except String (List DbItem)) :
    Except DsError SnapshotInfo :=
  match resp with
  | .error e => .error (.queryError e)
  | .ok items => getLatestFromItems items

/-! ## Lightsail pruning (`pkg/snapshot/lightsail/lightsail.go`) -/

/-- A Lightsail instance snapshot as used by `Prune`.  The source
dereferences `snapshot.Name` unchecked (lightsail.go line 146), so the
name is modelled as a plain string; `FromInstanceName` and `CreatedAt`
are nil-checked and stay optional. -/
structure LsSnapshot where
  name : String
  fromInstanceName : Option String
  createdAtNs : Option Int
  deriving Repr, DecidableEq

/-- The collection loop of `Prune` (lightsail.go lines 138–151): keep
snapshots of this instance whose name carries the suffix. -/
def lsCollect (instanceName suffix : String) (snaps : List LsSnapshot) :
    List LsSnapshot :=
  snaps.filter fun s =>
    (s.fromInstanceName == some instanceName) && goHasSuffix s.name suffix

/-- The deletion loop of `Prune` (lightsail.go lines 158–179): skip
snapshots without a creation time, skip those created after
`now − retention`, delete the rest (the delete call carries the
snapshot name). -/
def lsPruneDeletes (instanceName suffix : String) (retentionNs nowNs : Int)
    (snaps : List LsSnapshot) : List String :=
  (lsCollect instanceName suffix snaps).filterMap fun s =>
    match s.createdAtNs with
    | none => none
    | some c => if nowNs - retentionNs < c then none else some s.name

/-! ## Snapshot naming and the creator's store write
(ec2.go lines 191–195, dynamodb.go lines 74–107) -/

/-- The ASCII digit character for `n < 10`. -/
def digitChar (n : Nat) : Char := Char.ofNat (48 + n)

/-- Decimal digit string, fuelled helper (the fuel strictly exceeds the
number, so it never runs out). -/
def natDecReprAux : Nat → Nat → List Char
  | 0, _ => []
  | fuel + 1, n =>
    if n < 10 then [digitChar n]
    else natDecReprAux fuel (n / 10) ++ [digitChar (n % 10)]

/-- Decimal digit string of a natural number (the `%d` rendering of the
nanosecond timestamp; run timestamps are nonnegative). -/
def natDecRepr (n : Nat) : List Char :=
  natDecReprAux (n + 1) n

/-- The snapshot name
`fmt.Sprintf("%s-%d-%s", volume.VolumeId, time.Now().UnixNano(), smgr.suffix)`
(ec2.go lines 191–195).  `volume.VolumeId` is a `*string`, so `%s`
renders fmt's representation of the pointer; that rendering is
abstracted as the prefix `volRepr`. -/
def snapshotName (volRepr : String) (nanos : Nat) (suffix : String) : String :=
  volRepr ++ "-" ++ String.mk (natDecRepr nanos) ++ "-" ++ suffix

/-! ## The `restore ebs` command (`cmd/snapshotter/main.go` lines 237–292) -/

/-- The `CreateVolumeInput` fields `RestoreManager.Run` can populate. -/
structure CreateVolumeInput where
  az : String
  snapshotId : String
  size : Option Int
  iops : Option Int
  volumeType : Option String
  encrypted : Option Bool
  kmsKeyId : Option String
  deriving Repr, DecidableEq

/-- The relevant `restore ebs` flags (main.go lines 176–186); unset
string flags default to `""`, unset numeric flags to `0`. -/
structure RestoreEbsFlags where
  fromSnapshot : String
  fromResource : String
  dynamodbTable : String
  az : String
  size : Int
  iops : Int
  volumeType : String
  encrypted : Bool
  kmsKeyID : String
  deriving Repr, DecidableEq

/-- Network calls the restore path can make. -/
inductive NetCall
  | dynamoQueryCall (table resource : String)
  | createVolumeCall (input : CreateVolumeInput)
  deriving Repr, DecidableEq

/-- Failures of the restore path: the pre-flight configuration checks
(`logger.Fatal`, main.go lines 240 and 249) or a failed metadata
lookup (line 254). -/
inductive MainError
  | configurationError (msg : String)
  | lookupError (e : DsError)
  deriving Repr, DecidableEq

/-- The `CreateVolumeInput` built from the flags by the option plumbing
of main.go (lines 261–279) and `RestoreManager.Run`
(ec2.go restore part, lines 390–413). -/
def mkVolInput (flags : RestoreEbsFlags) (snapshotId : String) :
    CreateVolumeInput :=
  let enc : Prop := flags.encrypted = true ∨ flags.kmsKeyID ≠ ""
  { az := flags.az
    snapshotId := snapshotId
    size := if 0 < flags.size then some flags.size else none
    iops := if 0 < flags.iops then some flags.iops else none
    volumeType := if flags.volumeType ≠ "" then some flags.volumeType else none
    encrypted := if enc then some true else none
    kmsKeyId := if enc ∧ flags.kmsKeyID ≠ "" then some flags.kmsKeyID else none }

/-- The `restore ebs` branch of `main` (main.go lines 237–292): the
network calls issued, in order, and the outcome (the create-volume
request on success).  The pre-flight checks run before any provider or
metadata-store call. -/
def restoreEbs (flags : RestoreEbsFlags) (nowSec : Int) (table : List DbItem) :
    List NetCall × Except MainError CreateVolumeInput :=
  if flags.fromResource = "" ∧ flags.fromSnapshot = "" then
    ([], .error (.configurationError "need either snapshotID or resource"))
  else if flags.fromResource ≠ "" then
    if flags.dynamodbTable = "" then
      ([], .error (.configurationError "need to dynamodb table to retrieve snapshot infos from"))
    else
      match getLatestSnapshotInfo nowSec table flags.fromResource with
      | .error e =>
        ([.dynamoQueryCall flags.dynamodbTable flags.fromResource],
          .error (.lookupError e))
      | .ok info =>
        ([.dynamoQueryCall flags.dynamodbTable flags.fromResource,
          .createVolumeCall (mkVolInput flags info.id)],
          .ok (mkVolInput flags info.id))
  else
    ([.createVolumeCall (mkVolInput flags flags.fromSnapshot)],
      .ok (mkVolInput flags flags.fromSnapshot))

/-! ## Claim theorems on the EC2 creator and pruner -/

/-- C1: the claim says `Prune` deletes a snapshot exactly when `now` is
at or past its recorded expiry.  The code (ec2.go lines 290–298) does
the opposite: at `now` = 2024-01-02T00:00:00Z it issues a delete for a
snapshot whose `_DELETE_AFTER` is 2024-01-03 (expiry in the future) and
skips a snapshot whose `_DELETE_AFTER` is 2024-01-01 (expiry in the
past), because the `deleteAfter.Before(now)` branch `break`s while the
other branch deletes. -/
theorem c1_prune_comparison_inverted :
    parseRFC3339 "2024-01-03T00:00:00Z" = some 1704240000000000000 ∧
    (1704153600000000000 : Int) < 1704240000000000000 ∧
    ec2Prune "_DELETE_AFTER" 1704153600000000000
      [⟨some "snap-future",
        [⟨some "name", some "vol-1-123-auto-snapshot"⟩,
         ⟨some "_DELETE_AFTER", some "2024-01-03T00:00:00Z"⟩]⟩] =
      [some "snap-future"] ∧
    parseRFC3339 "2024-01-01T00:00:00Z" = some 1704067200000000000 ∧
    (1704067200000000000 : Int) < 1704153600000000000 ∧
    ec2Prune "_DELETE_AFTER" 1704153600000000000
      [⟨some "snap-expired",
        [⟨some "_DELETE_AFTER", some "2024-01-01T00:00:00Z"⟩]⟩] = [] := by
  decide

/-- C2: the claim says an absent or nil-valued retention tag falls back
to the 7-day default.  In the code only a parse failure does; with the
tag absent (or its value nil) `days` keeps its zero initial value, so
the expiry equals the creation time instead of creation + 7 days. -/
theorem c2_absent_tag_yields_zero_retention :
    retentionDays "retention" [⟨some "backup", some "true"⟩] = 0 ∧
    retentionDays "retention" [⟨some "Retention", none⟩] = 0 ∧
    retentionDays "retention" [⟨some "retention", some "x7"⟩] = defaultRetentionDays ∧
    expiryNs 1704067200000000000
      (retentionDays "retention" [⟨some "backup", some "true"⟩]) =
      1704067200000000000 ∧
    expiryNs 1704067200000000000
      (retentionDays "retention" [⟨some "backup", some "true"⟩]) ≠
      1704067200000000000 + 7 * 86400000000000 := by
  decide

/-- C5 counterexample: the retention value 106752 parses, but
`time.Duration(days) * 24 * time.Hour` overflows `int64`
(106752 · 86400·10⁹ > 2⁶³ − 1), so the computed expiry is not
creation + N days — it lands before the creation time. -/
theorem c5_counterexample_overflow :
    parseInt64 "106752" = some 106752 ∧
    retentionDays "retention" [⟨some "retention", some "106752"⟩] = 106752 ∧
    expiryNs 1704067200000000000 106752 =
      1704067200000000000 - 9223371273709551616 ∧
    expiryNs 1704067200000000000 106752 ≠
      1704067200000000000 + 106752 * 86400000000000 ∧
    expiryNs 1704067200000000000 106752 < 1704067200000000000 := by
  decide

/-- C5 (amended): for a volume whose first effective retention tag has a
case-insensitively matching key and a value parsing as `N` with
`|N| ≤ 106751` (so the `int64` nanosecond duration does not overflow),
the computed expiry is exactly creation + N·24h. -/
theorem c5_parsed_retention_exact_expiry (retentionTag k v : String)
    (pre post : List Ec2Tag) (N creation : Int)
    (hpre : ∀ t ∈ pre, skipsRetentionTag (goToLower retentionTag) t = true)
    (hk : goToLower k = goToLower retentionTag)
    (hv : parseInt64 v = some N)
    (hlo : -106751 ≤ N) (hhi : N ≤ 106751) :
    retentionDays retentionTag (pre ++ ⟨some k, some v⟩ :: post) = N ∧
    expiryNs creation (retentionDays retentionTag (pre ++ ⟨some k, some v⟩ :: post)) =
      creation + N * 86400000000000 := by
  have hdays : retentionDays retentionTag (pre ++ ⟨some k, some v⟩ :: post) = N := by
    unfold retentionDays
    rw [retentionDaysLoop_append _ _ _ hpre]
    simp only [retentionDaysLoop, hk, if_true, hv]
  refine ⟨hdays, ?_⟩
  rw [hdays]
  unfold expiryNs
  rw [wrap64_eq_of_bounds _ (by omega) (by omega)]

/-- Witness for `c5_parsed_retention_exact_expiry`: a volume tagged
`Retention=14`, creator run at 2024-01-01T00:00:00Z. -/
theorem c5_witness :
    retentionDays "retention" ([] ++ ⟨some "Retention", some "14"⟩ :: []) = 14 ∧
    expiryNs 1704067200000000000
      (retentionDays "retention" ([] ++ ⟨some "Retention", some "14"⟩ :: [])) =
      1704067200000000000 + 14 * 86400000000000 :=
  c5_parsed_retention_exact_expiry "retention" "Retention" "14" [] []
    14 1704067200000000000
    (by intro t ht; exact absurd ht (List.not_mem_nil t))
    (by decide) (by decide) (by decide) (by decide)

/-- C8 counterexample: the tag value `-1` parses, giving a negative
retention, so the computed expiry lies before the creation time. -/
theorem c8_counterexample_negative :
    parseInt64 "-1" = some (-1) ∧
    retentionDays "retention" [⟨some "retention", some "-1"⟩] = -1 ∧
    expiryNs 1704067200000000000 (-1) =
      1704067200000000000 - 86400000000000 ∧
    expiryNs 1704067200000000000 (-1) < 1704067200000000000 := by
  decide

/-- C8 (amended): the retention derived by the creator is non-negative
— and hence the expiry is at or after the creation time — provided
every parseable matching retention-tag value on the volume lies in
`[0, 106751]` (non-negative and below the `int64` duration overflow
threshold).  An absent, nil or unparsable tag never makes the retention
negative and never aborts the run: the scan is total and degrades to
`0` or the default. -/
theorem c8_retention_nonneg (retentionTag : String) (tags : List Ec2Tag)
    (creation : Int)
    (h : ∀ t ∈ tags, ∀ k v N, t.key = some k →
      goToLower k = goToLower retentionTag → t.value = some v →
      parseInt64 v = some N → 0 ≤ N ∧ N ≤ 106751) :
    0 ≤ retentionDays retentionTag tags ∧
    creation ≤ expiryNs creation (retentionDays retentionTag tags) := by
  have hd : 0 ≤ retentionDays retentionTag tags ∧
      retentionDays retentionTag tags ≤ 106751 := by
    rcases retentionDaysLoop_spec (goToLower retentionTag) tags with
      h0 | h7 | ⟨t, ht, k, v, h1, h2, h3, h4⟩
    · unfold retentionDays
      rw [h0]
      exact ⟨le_refl 0, by decide⟩
    · unfold retentionDays
      rw [h7]
      exact ⟨by decide, by decide⟩
    · exact h t ht k v _ h1 h2 h3 h4
  obtain ⟨h0, h1⟩ := hd
  refine ⟨h0, ?_⟩
  unfold expiryNs
  rw [wrap64_eq_of_bounds _ (by omega) (by omega)]
  omega

/-- Witness for `c8_retention_nonneg`: a volume tagged `retention=14`. -/
theorem c8_witness :
    0 ≤ retentionDays "retention" [⟨some "retention", some "14"⟩] ∧
    (1704067200000000000 : Int) ≤ expiryNs 1704067200000000000
      (retentionDays "retention" [⟨some "retention", some "14"⟩]) := by
  refine c8_retention_nonneg "retention" _ _ ?_
  intro t ht k v N hk hkl hv hp
  rw [List.mem_singleton] at ht
  subst ht
  injection hk with hk
  subst hk
  injection hv with hv
  subst hv
  have h14 : parseInt64 "14" = some 14 := by decide
  rw [h14] at hp
  injection hp with hp
  subst hp
  exact ⟨by decide, by decide⟩

/-- C10: the create-snapshot request built for a volume populates only
the fixed description; `VolumeId` is never set, and the request does not
depend on the volume being iterated. -/
theorem c10_request_ignores_volume (v w : Ec2Volume) :
    (createSnapshotRequest v).volumeId = none ∧
    (createSnapshotRequest v).description = some defaultDescription ∧
    createSnapshotRequest v = createSnapshotRequest w :=
  ⟨rfl, rfl, rfl⟩

/-! ## Claim theorems on the metadata store -/

/-- In a list sorted ascending by `created_at`, the last element is
maximal. -/
theorem sorted_getLast_max :
    ∀ {l : List DbItem}, List.Sorted byCreated l → (h : l ≠ []) →
      ∀ x ∈ l, byCreated x (l.getLast h)
  | [], _, h => absurd rfl h
  | [a], _, _ => by
    intro x hx
    rw [List.mem_singleton] at hx
    subst hx
    exact le_refl _
  | a :: b :: m, hs, _ => by
    intro x hx
    have hcons := List.sorted_cons.mp hs
    have hne : b :: m ≠ [] := List.cons_ne_nil b m
    rw [List.getLast_cons hne]
    rcases List.mem_cons.mp hx with hxa | hxm
    · subst hxa
      exact hcons.1 _ (List.getLast_mem hne)
    · exact sorted_getLast_max hcons.2 hne x hxm

/-- The key condition, unpacked. -/
theorem inQuery_iff (resource : String) (cutoff : Int) (it : DbItem) :
    inQuery resource cutoff it = true ↔
      it.resource = resource ∧ cutoff ≤ it.createdAt := by
  simp [inQuery]

/-- C3: whenever some stored record for `resource` lies inside the
2-day lookback window, `GetLatestSnapshotInfo` returns a record of
`resource` inside the window whose creation timestamp is maximal among
all in-window records of `resource`. -/
theorem c3_latest_is_max_in_window (nowSec : Int) (table : List DbItem)
    (resource : String)
    (hex : ∃ it ∈ table, it.resource = resource ∧
      nowSec - lookbackSec ≤ it.createdAt) :
    ∃ best ∈ table, best.resource = resource ∧
      nowSec - lookbackSec ≤ best.createdAt ∧
      getLatestSnapshotInfo nowSec table resource = .ok (toSnapshotInfo best) ∧
      ∀ it ∈ table, it.resource = resource →
        nowSec - lookbackSec ≤ it.createdAt →
        it.createdAt ≤ best.createdAt := by
  obtain ⟨it0, hit0, hres0, hcut0⟩ := hex
  have hmem0 : it0 ∈ table.filter (inQuery resource (nowSec - lookbackSec)) :=
    List.mem_filter.mpr ⟨hit0, (inQuery_iff _ _ _).mpr ⟨hres0, hcut0⟩⟩
  have hperm := List.perm_insertionSort byCreated
    (table.filter (inQuery resource (nowSec - lookbackSec)))
  have hsne : List.insertionSort byCreated
      (table.filter (inQuery resource (nowSec - lookbackSec))) ≠ [] := by
    intro hnil
    rw [hnil] at hperm
    exact List.not_mem_nil it0 (hperm.symm.mem_iff.mp hmem0)
  refine ⟨(List.insertionSort byCreated
      (table.filter (inQuery resource (nowSec - lookbackSec)))).getLast hsne,
    ?_, ?_, ?_, ?_, ?_⟩
  case _ =>
    exact (List.mem_filter.mp (hperm.mem_iff.mp (List.getLast_mem hsne))).1
  case _ =>
    exact ((inQuery_iff _ _ _).mp
      (List.mem_filter.mp (hperm.mem_iff.mp (List.getLast_mem hsne))).2).1
  case _ =>
    exact ((inQuery_iff _ _ _).mp
      (List.mem_filter.mp (hperm.mem_iff.mp (List.getLast_mem hsne))).2).2
  case _ =>
    show getLatestFromItems (List.insertionSort byCreated
      (table.filter (inQuery resource (nowSec - lookbackSec)))) = _
    rw [getLatestFromItems, List.getLast?_eq_getLast_of_ne_nil hsne]
  case _ =>
    intro it hit hr hc
    have hmem : it ∈ List.insertionSort byCreated
        (table.filter (inQuery resource (nowSec - lookbackSec))) :=
      hperm.mem_iff.mpr
        (List.mem_filter.mpr ⟨hit, (inQuery_iff _ _ _).mpr ⟨hr, hc⟩⟩)
    exact sorted_getLast_max (List.sorted_insertionSort byCreated _) hsne it hmem

/-- Witness for `c3_latest_is_max_in_window`: the spec scenario — two
records for `vol-2` at T0−1h and T0−30m, queried at
T0 = 2024-01-01T00:00:00Z. -/
theorem c3_witness :
    ∃ best ∈ [⟨"vol-2", 1704063600, "snap-old", []⟩,
        (⟨"vol-2", 1704065400, "snap-new", []⟩ : DbItem)],
      best.resource = "vol-2" ∧
      1704067200 - lookbackSec ≤ best.createdAt ∧
      getLatestSnapshotInfo 1704067200
        [⟨"vol-2", 1704063600, "snap-old", []⟩,
         ⟨"vol-2", 1704065400, "snap-new", []⟩] "vol-2" =
        .ok (toSnapshotInfo best) ∧
      ∀ it ∈ [⟨"vol-2", 1704063600, "snap-old", []⟩,
          (⟨"vol-2", 1704065400, "snap-new", []⟩ : DbItem)],
        it.resource = "vol-2" → 1704067200 - lookbackSec ≤ it.createdAt →
        it.createdAt ≤ best.createdAt :=
  c3_latest_is_max_in_window 1704067200
    [⟨"vol-2", 1704063600, "snap-old", []⟩,
     ⟨"vol-2", 1704065400, "snap-new", []⟩] "vol-2"
    (by decide)

/-- C6: when every stored record of the resource lies strictly before
the 2-day lookback cutoff (in particular when none exists),
`GetLatestSnapshotInfo` fails with the `notFound` error and returns no
record; that error is a different constructor from the provider
`queryError`, which is what a failed query maps to. -/
theorem c6_notfound_outside_window (nowSec : Int) (table : List DbItem)
    (resource : String)
    (h : ∀ it ∈ table, it.resource = resource →
      it.createdAt < nowSec - lookbackSec) :
    getLatestSnapshotInfo nowSec table resource = .error .notFound ∧
    (∀ m, DsError.notFound ≠ DsError.queryError m) ∧
    (∀ m, getLatestSnapshotInfoResp (.error m) = .error (.queryError m)) := by
  have hfil : table.filter (inQuery resource (nowSec - lookbackSec)) = [] := by
    rw [List.filter_eq_nil_iff]
    intro it hit hq
    have hq' := (inQuery_iff _ _ _).mp hq
    exact absurd hq'.2 (not_le.mpr (h it hit hq'.1))
  refine ⟨?_, fun m hne => DsError.noConfusion hne, fun m => rfl⟩
  show getLatestFromItems (List.insertionSort byCreated
    (table.filter (inQuery resource (nowSec - lookbackSec)))) = _
  rw [hfil]
  rfl

/-- Witness for `c6_notfound_outside_window`: one record, ten days old,
queried at 2024-01-01T00:00:00Z. -/
theorem c6_witness :
    getLatestSnapshotInfo 1704067200
      [⟨"vol-1", 1703203200, "snap-old", []⟩] "vol-1" = .error .notFound ∧
    (∀ m, DsError.notFound ≠ DsError.queryError m) ∧
    (∀ m, getLatestSnapshotInfoResp (.error m) = .error (.queryError m)) :=
  c6_notfound_outside_window 1704067200
    [⟨"vol-1", 1703203200, "snap-old", []⟩] "vol-1" (by decide)

/-! ## Claim theorems on snapshot naming and double runs -/

theorem digitChar_toNat (n : Nat) (h : n < 10) : (digitChar n).toNat = 48 + n := by
  interval_cases n <;> decide

theorem digitsVal_append (l : List Char) (c : Char) :
    digitsVal (l ++ [c]) = digitsVal l * 10 + (c.toNat - 48) := by
  simp [digitsVal, List.foldl_append]

theorem digitsVal_natDecReprAux (fuel : Nat) :
    ∀ n, n < fuel → digitsVal (natDecReprAux fuel n) = n := by
  induction fuel with
  | zero => intro n hn; omega
  | succ fuel ih =>
    intro n hn
    rw [natDecReprAux]
    by_cases h : n < 10
    · rw [if_pos h]
      simp only [digitsVal, List.foldl]
      rw [digitChar_toNat n h]
      omega
    · rw [if_neg h]
      have hdiv : n / 10 < fuel := by
        have hlt : n / 10 < n := Nat.div_lt_self (by omega) (by omega)
        omega
      rw [digitsVal_append, ih (n / 10) hdiv,
        digitChar_toNat (n % 10) (Nat.mod_lt n (by omega))]
      omega

theorem digitsVal_natDecRepr (n : Nat) : digitsVal (natDecRepr n) = n :=
  digitsVal_natDecReprAux (n + 1) n (Nat.lt_succ_self n)

theorem natDecRepr_inj {m n : Nat} (h : natDecRepr m = natDecRepr n) : m = n := by
  rw [← digitsVal_natDecRepr m, h, digitsVal_natDecRepr]

/-- Distinct nanosecond timestamps give distinct snapshot names (for the
same volume rendering and suffix). -/
theorem snapshotName_inj (volRepr suffix : String) {m n : Nat}
    (h : snapshotName volRepr m suffix = snapshotName volRepr n suffix) :
    m = n := by
  have hd : volRepr.data ++ ['-'] ++ natDecRepr m ++ ['-'] ++ suffix.data =
      volRepr.data ++ ['-'] ++ natDecRepr n ++ ['-'] ++ suffix.data :=
    congrArg String.data h
  simp only [List.append_assoc, List.singleton_append] at hd
  have hd' := List.append_cancel_left hd
  have hd'' := List.append_cancel_right (List.cons.inj hd').2
  exact natDecRepr_inj hd''

/-- C9 counterexample: two creator runs 100ns apart inside the same
epoch second.  The snapshot names differ, but both runs map to the same
store key `(resource, creation second)`, so the second
`StoreSnapshotInfo` overwrites the first run's row: the store ends with
a single row and the first run's record is gone. -/
theorem c9_counterexample_same_second :
    snapshotName "vol-1" 1700000000000000100 "auto-snapshot" ≠
      snapshotName "vol-1" 1700000000000000200 "auto-snapshot" ∧
    storeItemOf ⟨"vol-1", "snap-a", 1700000000000000100, []⟩ =
      ⟨"vol-1", 1700000000, "snap-a", []⟩ ∧
    storeItemOf ⟨"vol-1", "snap-b", 1700000000000000200, []⟩ =
      ⟨"vol-1", 1700000000, "snap-b", []⟩ ∧
    storeSnapshotInfo
      (storeSnapshotInfo [] ⟨"vol-1", "snap-a", 1700000000000000100, []⟩)
      ⟨"vol-1", "snap-b", 1700000000000000200, []⟩ =
      [⟨"vol-1", 1700000000, "snap-b", []⟩] ∧
    (⟨"vol-1", 1700000000, "snap-a", []⟩ : DbItem) ∉
      storeSnapshotInfo
        (storeSnapshotInfo [] ⟨"vol-1", "snap-a", 1700000000000000100, []⟩)
        ⟨"vol-1", "snap-b", 1700000000000000200, []⟩ := by
  decide

/-- C9 (amended): two creator runs for the same resource whose
nanosecond timestamps fall into distinct epoch seconds produce distinct
snapshot names and two independent store rows — the second
`StoreSnapshotInfo` adds a row and leaves the first intact.  (Within
one epoch second the names still differ but the store keys coincide and
`PutItem` overwrites, as the counterexample shows.) -/
theorem c9_distinct_seconds_independent_rows (volRepr suffix resource id1 id2 : String)
    (labels1 labels2 : List (String × String)) (t1 t2 : Nat)
    (hsec : Int.ediv (t1 : Int) 1000000000 ≠ Int.ediv (t2 : Int) 1000000000) :
    snapshotName volRepr t1 suffix ≠ snapshotName volRepr t2 suffix ∧
    storeSnapshotInfo
      (storeSnapshotInfo [] ⟨resource, id1, (t1 : Int), labels1⟩)
      ⟨resource, id2, (t2 : Int), labels2⟩ =
      [storeItemOf ⟨resource, id1, (t1 : Int), labels1⟩,
       storeItemOf ⟨resource, id2, (t2 : Int), labels2⟩] := by
  constructor
  · intro hname
    exact absurd (congrArg (fun t : Nat => Int.ediv (t : Int) 1000000000)
      (snapshotName_inj volRepr suffix hname)) hsec
  · have hk : sameKey (storeItemOf ⟨resource, id1, (t1 : Int), labels1⟩)
        (storeItemOf ⟨resource, id2, (t2 : Int), labels2⟩) = false := by
      simp only [sameKey, storeItemOf, Bool.and_eq_false_iff]
      right
      simpa using hsec
    show putItem (putItem [] (storeItemOf ⟨resource, id1, (t1 : Int), labels1⟩))
      (storeItemOf ⟨resource, id2, (t2 : Int), labels2⟩) = _
    have h1 : putItem [] (storeItemOf ⟨resource, id1, (t1 : Int), labels1⟩) =
        [storeItemOf ⟨resource, id1, (t1 : Int), labels1⟩] := rfl
    rw [h1, putItem]
    simp [hk]

/-- Witness for `c9_distinct_seconds_independent_rows`: runs three
seconds apart. -/
theorem c9_witness :
    snapshotName "vol-1" 1700000000000000000 "auto-snapshot" ≠
      snapshotName "vol-1" 1700000003000000000 "auto-snapshot" ∧
    storeSnapshotInfo
      (storeSnapshotInfo [] ⟨"vol-1", "snap-a", (1700000000000000000 : Int), []⟩)
      ⟨"vol-1", "snap-b", (1700000003000000000 : Int), []⟩ =
      [storeItemOf ⟨"vol-1", "snap-a", (1700000000000000000 : Int), []⟩,
       storeItemOf ⟨"vol-1", "snap-b", (1700000003000000000 : Int), []⟩] :=
  c9_distinct_seconds_independent_rows "vol-1" "auto-snapshot" "vol-1"
    "snap-a" "snap-b" [] [] 1700000000000000000 1700000003000000000
    (by decide)

/-! ## Claim theorems on the pruners' suffix filtering -/

/-- C4 counterexample: the EC2 tag-based `Prune` consults only the
delete-after tag, never the snapshot's name.  A snapshot named
`manual-backup` (no `auto-snapshot` suffix) carrying the delete-after
tag gets a delete issued (here with the tag timestamp the code's
inverted comparison acts on). -/
theorem c4_counterexample_ec2_no_suffix_filter :
    goHasSuffix "manual-backup" "auto-snapshot" = false ∧
    ec2Prune "_DELETE_AFTER" 1704153600000000000
      [⟨some "snap-manual",
        [⟨some "name", some "manual-backup"⟩,
         ⟨some "_DELETE_AFTER", some "2024-01-03T00:00:00Z"⟩]⟩] =
      [some "snap-manual"] := by
  decide

/-- C4 (amended): only the Lightsail instance variant filters by the
system-owned suffix — every delete it issues names a snapshot of the
managed instance whose name ends with the suffix.  The EC2 tag-based
variant performs no suffix filtering (see the counterexample). -/
theorem c4_lightsail_suffix_guard (instanceName suffix : String)
    (retentionNs nowNs : Int) (snaps : List LsSnapshot) :
    ∀ name ∈ lsPruneDeletes instanceName suffix retentionNs nowNs snaps,
      goHasSuffix name suffix = true ∧
      ∃ s ∈ snaps, s.name = name ∧ s.fromInstanceName = some instanceName := by
  intro name hname
  rw [lsPruneDeletes, List.mem_filterMap] at hname
  obtain ⟨s, hs, hf⟩ := hname
  rw [lsCollect, List.mem_filter] at hs
  obtain ⟨hs_mem, hp⟩ := hs
  rw [Bool.and_eq_true, beq_iff_eq] at hp
  obtain ⟨hinst, hsuf⟩ := hp
  have hname_eq : s.name = name := by
    cases hc : s.createdAtNs with
    | none => rw [hc] at hf; exact absurd hf (by simp)
    | some c =>
      rw [hc] at hf
      have hf' : (if nowNs - retentionNs < c then none else some s.name) =
          some name := hf
      by_cases hlt : nowNs - retentionNs < c
      · rw [if_pos hlt] at hf'; cases hf'
      · rw [if_neg hlt] at hf'; exact Option.some.inj hf'
  subst hname_eq
  exact ⟨hsuf, s, hs_mem, rfl, hinst⟩

/-- Witness for `c4_lightsail_suffix_guard`: a ten-day-old suffixed
snapshot of the managed instance is deleted, and the theorem recovers
the suffix fact. -/
theorem c4_witness :
    goHasSuffix "web-1-42-auto-snapshot" "auto-snapshot" = true ∧
    ∃ s ∈ [(⟨"web-1-42-auto-snapshot", some "web-1", some 0⟩ : LsSnapshot)],
      s.name = "web-1-42-auto-snapshot" ∧ s.fromInstanceName = some "web-1" :=
  c4_lightsail_suffix_guard "web-1" "auto-snapshot" 864000000000000
    1704067200000000000
    [⟨"web-1-42-auto-snapshot", some "web-1", some 0⟩]
    "web-1-42-auto-snapshot" (by decide)

/-! ## Claim theorem on the restore path -/

/-- C7: when both `from-snapshot` and `from-resource` are unset, the
`restore ebs` path fails with the configuration error before issuing
any network call — the call list is empty. -/
theorem c7_no_calls_without_inputs (flags : RestoreEbsFlags) (nowSec : Int)
    (table : List DbItem)
    (h1 : flags.fromSnapshot = "") (h2 : flags.fromResource = "") :
    restoreEbs flags nowSec table =
      ([], .error (.configurationError "need either snapshotID or resource")) := by
  rw [restoreEbs, if_pos ⟨h2, h1⟩]

/-- Witness for `c7_no_calls_without_inputs`: all flags at their
defaults. -/
theorem c7_witness :
    restoreEbs ⟨"", "", "", "eu-central-1a", 0, 0, "", false, ""⟩ 1704067200 [] =
      ([], .error (.configurationError "need either snapshotID or resource")) :=
  c7_no_calls_without_inputs ⟨"", "", "", "eu-central-1a", 0, 0, "", false, ""⟩
    1704067200 [] rfl rfl

end AwsAutoSnapshot
